import Mathlib

/-
Verification of the gopls protocol adapter (ycmd/completers/go/go_completer.py)
against its natural-language specification.

The Python source is shallowly embedded below.  Filesystem access, the
language-server protocol engine and subprocess invocation are external
collaborators; they are modelled as explicit parameters (an abstract
filesystem record, a hover-query engine state, an outcome value for the
startup subprocess query), so that every adapter function is a pure,
executable Lean definition mirroring the control flow of the source.
-/

/-! ## Python string containment

Models the Python substring test used on line 90 of the source:
any(excluded_path in filepath_abs for excluded_path in ...).
The operator p in s is true when p occurs contiguously inside s.
-/

/-- True when the first character list occurs contiguously inside the
second, matching Python substring containment (the empty list occurs in
every list). -/
def listContainsSub (p : List Char) : List Char → Bool
  | [] => p.isEmpty
  | c :: t => p.isPrefixOf (c :: t) || listContainsSub p t

/-- Python substring test: p in s. -/
def strContains (p s : String) : Bool :=
  listContainsSub p.data s.data

/-- Python str.strip: drop leading and trailing whitespace characters. -/
def pyStrip (s : String) : String :=
  String.mk (((s.data.dropWhile Char.isWhitespace).reverse.dropWhile
      Char.isWhitespace).reverse)

/-! ## Workspace resolution (GetWorkspaceForFilepath, lines 88-97)

The filesystem operations the resolver consumes (os.path.abspath,
ycmd utils.PathsToAllParentFolders, os.path.dirname, and the
Path(folder).glob(root_file) existence test) are external to the source
file; they are modelled as an abstract record of functions.  The
resolver itself is translated line by line.
-/

/-- Abstract filesystem interface consumed by the workspace resolver.
parents lists the ancestor folders of a path from nearest to farthest,
as utils.PathsToAllParentFolders does; hasRootFile folder f models the
non-recursive glob existence test for file name f directly in folder. -/
structure FS where
  abspath : String → String
  parents : String → List String
  dirname : String → String
  hasRootFile : String → String → Bool

/-- GetProjectRootFiles (source lines 80-85): the project-root marker
file names. -/
def GetProjectRootFiles : List String := ["go.mod"]

/-- Whether a folder holds any project-root marker file; the inner loop
of the resolver (source lines 94-96). -/
def hasMarker (fs : FS) (folder : String) : Bool :=
  GetProjectRootFiles.any fun root_file => fs.hasRootFile folder root_file

/-- GetWorkspaceForFilepath (source lines 88-97).  Returns none when an
exclusion pattern is a substring of the absolute path; otherwise the
first ancestor folder holding a root marker (the outer for-loop,
whose body is hasMarker); otherwise none in strict mode and the dirname
of the file path in non-strict mode. -/
def GetWorkspaceForFilepath (fs : FS) (excludedWorkspacePaths : List String)
    (filepath : String) (strict : Bool) : Option String :=
  let filepath_abs := fs.abspath filepath
  if (excludedWorkspacePaths.any fun excluded_path =>
        strContains excluded_path filepath_abs) then
    none
  else
    match (fs.parents filepath).find? (hasMarker fs) with
    | some folder => some folder
    | none => if strict then none else some (fs.dirname filepath)

/-! ## Server command line (GetCommandLine, lines 100-106) -/

/-- GetCommandLine (source lines 100-106): the gopls path, then the
user-supplied arguments, then the logfile flag and the stderr file, and
the rpc trace flag exactly when debug logging is enabled. -/
def GetCommandLine (gopls_path : String) (user_supplied_gopls_args : List String)
    (stderr_file : String) (debugLoggingEnabled : Bool) : List String :=
  let cmdline := [gopls_path] ++ user_supplied_gopls_args ++
      ["-logfile", stderr_file]
  if debugLoggingEnabled then cmdline ++ ["-rpc.trace"] else cmdline

/-! ## Settings and configuration (lines 132-160)

The settings dictionary produced by DefaultSettings has a fixed shape,
so the ls subsection is embedded as a structure; the completer-level
settings dictionary may or may not hold the ls key, modelled by an
Option field, and the .get fallback to an empty dictionary is the
emptyDict variant of LsConfig.
-/

/-- The ls settings subsection, with the keys DefaultSettings produces
(source lines 132-145). -/
structure LsSection where
  hoverKind : String
  hints_assignVariableTypes : Bool
  hints_compositeLiteralFields : Bool
  hints_compositeLiteralTypes : Bool
  hints_constantValues : Bool
  hints_functionTypeParameters : Bool
  hints_parameterNames : Bool
  hints_rangeVariableTypes : Bool
  semanticTokens : Bool
deriving DecidableEq, Repr

/-- DefaultSettings (source lines 132-145). -/
def DefaultSettings : LsSection :=
  { hoverKind := "Structured"
    hints_assignVariableTypes := true
    hints_compositeLiteralFields := true
    hints_compositeLiteralTypes := true
    hints_constantValues := true
    hints_functionTypeParameters := true
    hints_parameterNames := true
    hints_rangeVariableTypes := true
    semanticTokens := true }

/-- The completer-level settings dictionary; ls is none when the key is
absent. -/
structure Settings where
  ls : Option LsSection
deriving DecidableEq, Repr

/-- Result of settings.get( ls, empty dict ): either the shared ls
subsection or a fresh empty dictionary. -/
inductive LsConfig where
  | lsSection (s : LsSection)
  | emptyDict
deriving DecidableEq, Repr

/-- Models self._settings.get( 'ls', \x7b\x7d ) on source line 159. -/
def settingsGetLs (st : Settings) : LsConfig :=
  match st.ls with
  | some s => LsConfig.lsSection s
  | none => LsConfig.emptyDict

/-- One item of a workspace/configuration pull request. -/
structure ConfigItem where
  section_ : String
  scopeUri : Option String
deriving DecidableEq, Repr

/-- A workspace/configuration request; params_items models
request[ 'params' ][ 'items' ]. -/
structure ConfigRequest where
  params_items : List ConfigItem
deriving DecidableEq, Repr

/-- WorkspaceConfigurationResponse (source lines 155-160): one copy of
the shared ls subsection per requested item. -/
def WorkspaceConfigurationResponse (st : Settings) (request : ConfigRequest) :
    List LsConfig :=
  request.params_items.map fun _ => settingsGetLs st

/-! ## Hover introspection (GetDoc lines 113-121, GetType lines 123-129)

The protocol engine is modelled as a state holding the outcome the next
hover query returns and a counter of hover queries issued, so that the
single-query property of the introspectors is provable.  A successful
hover response is modelled after JSON decoding: a payload holding the
signature and fullDocumentation fields.  Python exceptions become an
explicit error type.
-/

/-- Outcome of one hover query: the distinguished no-hover-info signal
(the NoHoverInfoException of the language-server layer) or a decoded
structured payload. -/
inductive HoverOutcome where
  | noHoverInfo
  | payload (signature : String) (fullDocumentation : String)
deriving DecidableEq, Repr

/-- Protocol-engine state: the outcome the next hover query yields, and
how many hover queries have been issued. -/
structure Engine where
  outcome : HoverOutcome
  hoverCalls : Nat
deriving DecidableEq, Repr

/-- GetHoverResponse: one hover query through the protocol engine. -/
def GetHoverResponse (e : Engine) : HoverOutcome × Engine :=
  (e.outcome, { e with hoverCalls := e.hoverCalls + 1 })

/-- Python exceptions the embedded operations can surface. -/
inductive PyError where
  | keyError (key : String)
  | assertionError
  | runtimeError (message : String)
  | fileNotFoundError
deriving DecidableEq, Repr

/-- Responses built through the ycmd responses module. -/
inductive Response where
  | detailedInfo (text : String)
  | displayMessage (message : String)
deriving DecidableEq, Repr

deriving instance DecidableEq for Except

/-- GetDoc (source lines 113-121).  Asserts the structured hover mode,
issues one hover query, and on success returns the stripped
concatenation of signature, newline and fullDocumentation; the
no-hover-info signal becomes a RuntimeError. -/
def GetDoc (st : Settings) (e : Engine) : Except PyError Response × Engine :=
  match st.ls with
  | none => (Except.error (PyError.keyError "ls"), e)
  | some ls =>
    if ls.hoverKind == "Structured" then
      let (h, eNext) := GetHoverResponse e
      match h with
      | HoverOutcome.noHoverInfo =>
          (Except.error (PyError.runtimeError "No documentation available."), eNext)
      | HoverOutcome.payload signature fullDocumentation =>
          let docs := signature ++ "\n" ++ fullDocumentation
          (Except.ok (Response.detailedInfo (pyStrip docs)), eNext)
    else
      (Except.error PyError.assertionError, e)

/-- GetType (source lines 123-129).  Issues one hover query and returns
the signature field as a display message; the no-hover-info signal
becomes a RuntimeError. -/
def GetType (e : Engine) : Except PyError Response × Engine :=
  let (h, eNext) := GetHoverResponse e
  match h with
  | HoverOutcome.noHoverInfo =>
      (Except.error (PyError.runtimeError "Unknown type."), eNext)
  | HoverOutcome.payload signature _ =>
      (Except.ok (Response.displayMessage signature), eNext)

/-! ## Startup module-cache query (GetGoModCachePath, lines 39-45)

subprocess.run with check=True has three relevant outcomes: the command
runs and exits zero (a CompletedProcess with captured stdout), the
command runs and exits nonzero (CalledProcessError, raised because of
check=True), or the executable cannot be launched at all
(FileNotFoundError).  The source catches only CalledProcessError.
-/

/-- Outcome of subprocess.run([go, env, GOMODCACHE], check=True). -/
inductive GoEnvOutcome where
  | ok (stdout : String)
  | calledProcessError
  | fileNotFound
deriving DecidableEq, Repr

/-- GetGoModCachePath (source lines 39-45): on success a one-element
list holding the stripped stdout; CalledProcessError is caught and
yields the empty list; FileNotFoundError is not caught and propagates. -/
def GetGoModCachePath (r : GoEnvOutcome) : Except PyError (List String) :=
  match r with
  | GoEnvOutcome.ok stdout => Except.ok [pyStrip stdout]
  | GoEnvOutcome.calledProcessError => Except.ok []
  | GoEnvOutcome.fileNotFound => Except.error PyError.fileNotFoundError

/-! ## Exclusion-list initialisation (constructor, lines 62-73) -/

/-- A Python value a user-options entry can hold. -/
inductive PyOptionValue where
  | pyList (xs : List String)
  | pyStr (s : String)
  | pyDict
  | pyInt (n : Int)
  | pyNone
deriving DecidableEq, Repr

/-- Python isinstance(v, list). -/
def isinstanceList : PyOptionValue → Bool
  | PyOptionValue.pyList _ => true
  | _ => false

/-- The exclusion-list initialisation in the constructor (source lines
69-73): user_options.get may find no entry (none); a list entry is used
as given; any other value falls back to the module-cache-derived
default. -/
def InitExcludedWorkspacePaths (optValue : Option PyOptionValue)
    (pathsToGoModCache : List String) : List String :=
  match optValue with
  | some v =>
    match v with
    | PyOptionValue.pyList xs => xs
    | _ => pathsToGoModCache
  | none => pathsToGoModCache

/-! ## Sample inputs used by witnesses -/

/-- A filesystem where every absolute path sits inside the Go module
cache, yet an ancestor holds a go.mod marker. -/
def cacheFS : FS :=
  { abspath := fun p => "/go/pkg/mod/example.com/" ++ p
    parents := fun _ => ["/go/pkg/mod/example.com", "/go/pkg/mod", "/go/pkg", "/go", "/"]
    dirname := fun _ => "/go/pkg/mod/example.com"
    hasRootFile := fun folder f =>
      folder == "/go/pkg/mod/example.com" && f == "go.mod" }

/-- A filesystem where both the project folder and a farther ancestor
hold a go.mod marker. -/
def projectFS : FS :=
  { abspath := fun p => "/home/user/proj/src/" ++ p
    parents := fun _ =>
      ["/home/user/proj/src", "/home/user/proj", "/home/user", "/home", "/"]
    dirname := fun _ => "/home/user/proj/src"
    hasRootFile := fun folder f =>
      (folder == "/home/user/proj" || folder == "/home/user") && f == "go.mod" }

/-- A filesystem with no project-root marker anywhere. -/
def markerlessFS : FS :=
  { abspath := fun p => "/tmp/scratch/" ++ p
    parents := fun _ => ["/tmp/scratch", "/tmp", "/"]
    dirname := fun _ => "/tmp/scratch"
    hasRootFile := fun _ _ => false }

/-- The exclusion list derived from a module cache location. -/
def sampleExcludedPaths : List String := ["/go/pkg/mod"]

/-- Settings holding the default ls subsection (structured hover). -/
def sampleStructuredSettings : Settings := { ls := some DefaultSettings }

/-- Settings whose negotiated hover mode is not the structured one. -/
def sampleUnstructuredSettings : Settings :=
  { ls := some { DefaultSettings with hoverKind := "SingleLine" } }

/-- An engine whose next hover query yields a structured payload. -/
def sampleHoverEngine : Engine :=
  { outcome := HoverOutcome.payload "func F() error" "Does X."
    hoverCalls := 0 }

/-- An engine whose next hover query yields the no-hover-info signal. -/
def sampleNoHoverEngine : Engine :=
  { outcome := HoverOutcome.noHoverInfo
    hoverCalls := 0 }

/-- A two-item configuration pull request. -/
def sampleRequest : ConfigRequest :=
  { params_items :=
      [ { section_ := "gopls", scopeUri := some "file:///home/user/proj" }
      , { section_ := "gopls", scopeUri := some "file:///home/user/other" } ] }

/-! ## Helper lemmas -/

/-- find? on a decomposed list returns the marked middle element when
everything before it fails the predicate. -/
theorem find?_append_first {α : Type} (p : α → Bool) (pre : List α) (d : α)
    (post : List α) (hpre : ∀ x ∈ pre, p x = false) (hd : p d = true) :
    (pre ++ d :: post).find? p = some d := by
  induction pre with
  | nil =>
    rw [List.nil_append, List.find?_cons_of_pos _ hd]
  | cons a t ih =>
    have ha : p a = false := hpre a (List.mem_cons_self a t)
    rw [List.cons_append, List.find?_cons_of_neg _ (by simp [ha])]
    exact ih fun x hx => hpre x (List.mem_cons_of_mem a hx)

/-! ## Claim theorems -/

/-- Claim C1: for every file path whose absolute form contains an
exclusion pattern as a substring, GetWorkspaceForFilepath returns none
for every strict flag; the statement quantifies over every parents,
dirname and hasRootFile component of the filesystem, so the outcome is
independent of the ancestor walk: the exclusion test decides first. -/
theorem C1_excluded_filepath_resolves_to_none (fs : FS)
    (excludedWorkspacePaths : List String) (filepath : String) (strict : Bool)
    (hex : (excludedWorkspacePaths.any fun excluded_path =>
      strContains excluded_path (fs.abspath filepath)) = true) :
    GetWorkspaceForFilepath fs excludedWorkspacePaths filepath strict = none := by
  simp [GetWorkspaceForFilepath, hex]

/-- Witness for C1: a file inside the module cache, under a folder that
even holds a go.mod marker, resolves to none for both strict flags. -/
theorem C1_excluded_filepath_resolves_to_none_witness :
    GetWorkspaceForFilepath cacheFS sampleExcludedPaths "a.go" true = none ∧
    GetWorkspaceForFilepath cacheFS sampleExcludedPaths "a.go" false = none :=
  ⟨C1_excluded_filepath_resolves_to_none cacheFS sampleExcludedPaths "a.go" true
      (by decide),
   C1_excluded_filepath_resolves_to_none cacheFS sampleExcludedPaths "a.go" false
      (by decide)⟩

/-- Claim C2: with no exclusion match, when the ancestor list splits as
pre ++ d :: post with no marker in pre and a marker in d, both strict
modes return d — the nearest marked ancestor, never a farther one. -/
theorem C2_nearest_marked_ancestor_wins (fs : FS)
    (excludedWorkspacePaths : List String) (filepath : String)
    (pre : List String) (d : String) (post : List String)
    (hex : (excludedWorkspacePaths.any fun excluded_path =>
      strContains excluded_path (fs.abspath filepath)) = false)
    (hparents : fs.parents filepath = pre ++ d :: post)
    (hpre : ∀ x ∈ pre, hasMarker fs x = false)
    (hd : hasMarker fs d = true) :
    GetWorkspaceForFilepath fs excludedWorkspacePaths filepath true = some d ∧
    GetWorkspaceForFilepath fs excludedWorkspacePaths filepath false = some d := by
  have hfind : (fs.parents filepath).find? (hasMarker fs) = some d := by
    rw [hparents]
    exact find?_append_first (hasMarker fs) pre d post hpre hd
  constructor <;> simp [GetWorkspaceForFilepath, hex, hfind]

/-- Witness for C2: the project folder is chosen although a farther
ancestor also holds a marker. -/
theorem C2_nearest_marked_ancestor_wins_witness :
    GetWorkspaceForFilepath projectFS [] "main.go" true = some "/home/user/proj" ∧
    GetWorkspaceForFilepath projectFS [] "main.go" false = some "/home/user/proj" :=
  C2_nearest_marked_ancestor_wins projectFS [] "main.go"
    ["/home/user/proj/src"] "/home/user/proj" ["/home/user", "/home", "/"]
    (by decide) rfl (by decide) (by decide)

/-- Claim C3: with no exclusion match and no marked ancestor, strict
resolution returns none and non-strict resolution returns the dirname
of the file path; both are ordinary return values, not errors. -/
theorem C3_no_marker_fallback (fs : FS)
    (excludedWorkspacePaths : List String) (filepath : String)
    (hex : (excludedWorkspacePaths.any fun excluded_path =>
      strContains excluded_path (fs.abspath filepath)) = false)
    (hnone : ∀ x ∈ fs.parents filepath, hasMarker fs x = false) :
    GetWorkspaceForFilepath fs excludedWorkspacePaths filepath true = none ∧
    GetWorkspaceForFilepath fs excludedWorkspacePaths filepath false =
      some (fs.dirname filepath) := by
  have hfind : (fs.parents filepath).find? (hasMarker fs) = none := by
    rw [List.find?_eq_none]
    intro x hx
    simp [hnone x hx]
  constructor <;> simp [GetWorkspaceForFilepath, hex, hfind]

/-- Witness for C3: a file with no project root above it. -/
theorem C3_no_marker_fallback_witness :
    GetWorkspaceForFilepath markerlessFS sampleExcludedPaths "note.go" true = none ∧
    GetWorkspaceForFilepath markerlessFS sampleExcludedPaths "note.go" false =
      some (markerlessFS.dirname "note.go") :=
  C3_no_marker_fallback markerlessFS sampleExcludedPaths "note.go"
    (by decide) (by decide)

/-- Counterexample for C4 as stated: when the user-supplied argument
list itself holds the logfile flag, the assembled command line holds it
twice, not exactly once. -/
theorem C4_logfile_once_counterexample :
    (GetCommandLine "gopls" ["-logfile"] "stderr.log" false).count "-logfile" ≠ 1 := by
  decide

/-- Claim C4 amended: when neither the resolved server path, nor any
user-supplied argument, nor the stderr file path is one of the two
flags, the command line holds the logfile flag exactly once and holds
the rpc trace flag exactly when debug logging is enabled. -/
theorem C4_logfile_once_trace_iff_debug (gopls_path : String)
    (user_supplied_gopls_args : List String) (stderr_file : String)
    (debugLoggingEnabled : Bool)
    (h1 : "-logfile" ∉ user_supplied_gopls_args)
    (h2 : gopls_path ≠ "-logfile")
    (h3 : stderr_file ≠ "-logfile")
    (h4 : "-rpc.trace" ∉ user_supplied_gopls_args)
    (h5 : gopls_path ≠ "-rpc.trace")
    (h6 : stderr_file ≠ "-rpc.trace") :
    (GetCommandLine gopls_path user_supplied_gopls_args stderr_file
        debugLoggingEnabled).count "-logfile" = 1 ∧
    ("-rpc.trace" ∈ GetCommandLine gopls_path user_supplied_gopls_args stderr_file
        debugLoggingEnabled ↔ debugLoggingEnabled = true) := by
  have hargs : user_supplied_gopls_args.count "-logfile" = 0 :=
    List.count_eq_zero.mpr h1
  refine ⟨?_, ?_⟩
  · cases debugLoggingEnabled <;>
      simp [GetCommandLine, List.count_append, List.count_cons, List.count_nil,
        hargs, h2, h3, Ne.symm h2, Ne.symm h3,
        (by decide : ("-rpc.trace" : String) ≠ "-logfile")]
  · cases debugLoggingEnabled <;>
      simp [GetCommandLine, List.mem_append, List.mem_cons, h4, h5, h6,
        Ne.symm h5, Ne.symm h6,
        (by decide : ("-rpc.trace" : String) ≠ "-logfile")]

/-- Witness for the amended C4: an ordinary invocation. -/
theorem C4_logfile_once_trace_iff_debug_witness :
    (GetCommandLine "/usr/bin/gopls" ["-remote=auto"] "/tmp/stderr.log"
        true).count "-logfile" = 1 ∧
    ("-rpc.trace" ∈ GetCommandLine "/usr/bin/gopls" ["-remote=auto"]
        "/tmp/stderr.log" true ↔ true = true) :=
  C4_logfile_once_trace_iff_debug "/usr/bin/gopls" ["-remote=auto"]
    "/tmp/stderr.log" true (by decide) (by decide) (by decide) (by decide)
    (by decide) (by decide)

/-- Claim C5: the configuration-pull response has exactly one entry per
requested item, in request order, and every entry is the one shared ls
subsection of the settings object. -/
theorem C5_configuration_pull_shared_settings (st : Settings)
    (request : ConfigRequest) :
    (WorkspaceConfigurationResponse st request).length =
      request.params_items.length ∧
    ∀ entry ∈ WorkspaceConfigurationResponse st request,
      entry = settingsGetLs st := by
  constructor
  · simp [WorkspaceConfigurationResponse]
  · intro entry h
    rcases List.mem_map.mp h with ⟨i, _, hi⟩
    exact hi.symm

/-- Witness for C5: a two-item pull against the default settings. -/
theorem C5_configuration_pull_shared_settings_witness :
    (WorkspaceConfigurationResponse sampleStructuredSettings sampleRequest).length =
      sampleRequest.params_items.length ∧
    LsConfig.lsSection DefaultSettings = settingsGetLs sampleStructuredSettings :=
  ⟨(C5_configuration_pull_shared_settings sampleStructuredSettings sampleRequest).1,
   (C5_configuration_pull_shared_settings sampleStructuredSettings sampleRequest).2
      (LsConfig.lsSection DefaultSettings) (by decide)⟩

/-- Claim C6: under structured hover settings, a successful hover query
with signature s and full documentation d makes GetDoc return the
stripped concatenation of s, a newline and d as a detailed-info
response, and makes GetType return exactly s as a display message. -/
theorem C6_hover_success_formatting (st : Settings) (ls : LsSection)
    (e : Engine) (signature fullDocumentation : String)
    (hls : st.ls = some ls) (hmode : ls.hoverKind = "Structured")
    (hout : e.outcome = HoverOutcome.payload signature fullDocumentation) :
    (GetDoc st e).1 = Except.ok (Response.detailedInfo
        (pyStrip (signature ++ "\n" ++ fullDocumentation))) ∧
    (GetType e).1 = Except.ok (Response.displayMessage signature) := by
  constructor
  · simp [GetDoc, hls, hmode, GetHoverResponse, hout]
  · simp [GetType, GetHoverResponse, hout]

/-- Witness for C6: the signature func F() error and the documentation
Does X. yield exactly the concatenation separated by one newline. -/
theorem C6_hover_success_formatting_witness :
    (GetDoc sampleStructuredSettings sampleHoverEngine).1 =
      Except.ok (Response.detailedInfo "func F() error\nDoes X.") ∧
    (GetType sampleHoverEngine).1 =
      Except.ok (Response.displayMessage "func F() error") := by
  have h := C6_hover_success_formatting sampleStructuredSettings DefaultSettings
    sampleHoverEngine "func F() error" "Does X." rfl rfl rfl
  exact ⟨h.1.trans (by decide), h.2⟩

/-- Claim C7: under structured hover settings, the no-hover-info signal
makes GetDoc fail with the no-documentation RuntimeError and GetType
fail with the unknown-type RuntimeError; the two errors are distinct
values, and each operation issues exactly one hover query. -/
theorem C7_no_hover_info_errors (st : Settings) (ls : LsSection) (e : Engine)
    (hls : st.ls = some ls) (hmode : ls.hoverKind = "Structured")
    (hout : e.outcome = HoverOutcome.noHoverInfo) :
    (GetDoc st e).1 =
      Except.error (PyError.runtimeError "No documentation available.") ∧
    (GetType e).1 = Except.error (PyError.runtimeError "Unknown type.") ∧
    (GetDoc st e).1 ≠ (GetType e).1 ∧
    (GetDoc st e).2.hoverCalls = e.hoverCalls + 1 ∧
    (GetType e).2.hoverCalls = e.hoverCalls + 1 := by
  have hdoc : (GetDoc st e).1 =
      Except.error (PyError.runtimeError "No documentation available.") := by
    simp [GetDoc, hls, hmode, GetHoverResponse, hout]
  have htype : (GetType e).1 =
      Except.error (PyError.runtimeError "Unknown type.") := by
    simp [GetType, GetHoverResponse, hout]
  refine ⟨hdoc, htype, ?_, ?_, ?_⟩
  · rw [hdoc, htype]
    decide
  · simp [GetDoc, hls, hmode, GetHoverResponse, hout]
  · simp [GetType, GetHoverResponse, hout]

/-- Witness for C7: default settings and an engine reporting no hover
information. -/
theorem C7_no_hover_info_errors_witness :
    (GetDoc sampleStructuredSettings sampleNoHoverEngine).1 =
      Except.error (PyError.runtimeError "No documentation available.") ∧
    (GetType sampleNoHoverEngine).1 =
      Except.error (PyError.runtimeError "Unknown type.") ∧
    (GetDoc sampleStructuredSettings sampleNoHoverEngine).1 ≠
      (GetType sampleNoHoverEngine).1 ∧
    (GetDoc sampleStructuredSettings sampleNoHoverEngine).2.hoverCalls =
      sampleNoHoverEngine.hoverCalls + 1 ∧
    (GetType sampleNoHoverEngine).2.hoverCalls =
      sampleNoHoverEngine.hoverCalls + 1 :=
  C7_no_hover_info_errors sampleStructuredSettings DefaultSettings
    sampleNoHoverEngine rfl rfl rfl

/-- Counterexample for C8 as stated: a failure to launch the go
executable (FileNotFoundError from subprocess.run) is a query failure,
yet GetGoModCachePath propagates it instead of returning the empty
list: only CalledProcessError is caught. -/
theorem C8_uncaught_launch_failure_counterexample :
    GetGoModCachePath GoEnvOutcome.fileNotFound =
      Except.error PyError.fileNotFoundError ∧
    GetGoModCachePath GoEnvOutcome.fileNotFound ≠ Except.ok [] := by
  decide

/-- Claim C8 amended: a query failure signalled as CalledProcessError
(the go command runs and exits nonzero) yields the empty exclusion
list without an exception; a failure to launch the go executable is
not caught and propagates as an exception. -/
theorem C8_query_failure_behaviour :
    GetGoModCachePath GoEnvOutcome.calledProcessError = Except.ok [] ∧
    GetGoModCachePath GoEnvOutcome.fileNotFound =
      Except.error PyError.fileNotFoundError :=
  ⟨rfl, rfl⟩

/-- Claim C9: GetDoc requires the structured hover mode: with any other
negotiated mode it stops with an AssertionError before issuing any
hover query, and under the precondition the assertion branch is
unreachable — the result is never an AssertionError. -/
theorem C9_structured_mode_precondition (st : Settings) (ls : LsSection)
    (e : Engine) (hls : st.ls = some ls) :
    (ls.hoverKind ≠ "Structured" →
      GetDoc st e = (Except.error PyError.assertionError, e)) ∧
    (ls.hoverKind = "Structured" →
      (GetDoc st e).1 ≠ Except.error PyError.assertionError) := by
  constructor
  · intro hne
    simp [GetDoc, hls, hne]
  · intro hmode
    cases hcase : e.outcome <;> simp [GetDoc, hls, hmode, GetHoverResponse, hcase]

/-- Witness for C9: a single-line hover mode trips the assertion with
no hover query issued, while the structured mode never does. -/
theorem C9_structured_mode_precondition_witness :
    GetDoc sampleUnstructuredSettings sampleNoHoverEngine =
      (Except.error PyError.assertionError, sampleNoHoverEngine) ∧
    (GetDoc sampleStructuredSettings sampleNoHoverEngine).1 ≠
      Except.error PyError.assertionError :=
  ⟨(C9_structured_mode_precondition sampleUnstructuredSettings
      { DefaultSettings with hoverKind := "SingleLine" }
      sampleNoHoverEngine rfl).1 (by decide),
   (C9_structured_mode_precondition sampleStructuredSettings DefaultSettings
      sampleNoHoverEngine rfl).2 rfl⟩

/-- Claim C10: a present but non-list value for the excluded-paths user
option is ignored in favour of the module-cache-derived default, and a
list value is taken as given. -/
theorem C10_non_list_option_ignored (pathsToGoModCache : List String)
    (v : PyOptionValue) (hv : isinstanceList v = false) :
    InitExcludedWorkspacePaths (some v) pathsToGoModCache = pathsToGoModCache ∧
    ∀ xs, InitExcludedWorkspacePaths (some (PyOptionValue.pyList xs))
      pathsToGoModCache = xs := by
  constructor
  · cases v <;> simp_all [isinstanceList, InitExcludedWorkspacePaths]
  · intro xs
    rfl

/-- Witness for C10: a single string is ignored, a list is kept. -/
theorem C10_non_list_option_ignored_witness :
    InitExcludedWorkspacePaths (some (PyOptionValue.pyStr "/go/pkg/mod"))
      sampleExcludedPaths = sampleExcludedPaths ∧
    InitExcludedWorkspacePaths (some (PyOptionValue.pyList ["/custom"]))
      sampleExcludedPaths = ["/custom"] :=
  ⟨(C10_non_list_option_ignored sampleExcludedPaths
      (PyOptionValue.pyStr "/go/pkg/mod") (by decide)).1,
   (C10_non_list_option_ignored sampleExcludedPaths
      (PyOptionValue.pyStr "/go/pkg/mod") (by decide)).2 ["/custom"]⟩
